import Mathlib

/-!
Shallow embedding of `langchain_postgres/indexer/vectorstore_v2.py`:
the abstract `VectorIndex` contract (its derived default operations) together
with the reference in-memory backend `DictIndex` given in the class docstring
(`upsert`, `delete_by_ids`, `lazy_get_by_ids` over a Python dict).

Python runtime behavior is made explicit:
  - exceptions are values of `PyErr`; a fallible call returns `Except PyErr α`;
  - a generator run is a `GenRun`: the items yielded before completion plus an
    optional exception that terminated the run;
  - Python dict semantics (insertion order preserved, in-place overwrite on
    key reuse, `del` raising `KeyError` on a missing key) are modelled on an
    association list whose keys are unique by construction;
  - the synchronous/asynchronous distinction of iterable arguments matters to
    the default async adapters, so the `ids` argument of the async entry
    points is an `IdsVal` tagged sync or async, and iterating an async value
    with a synchronous `for` raises `TypeError`, as in CPython.
-/

set_option autoImplicit false

/-- A Python exception, by class (with enough payload to tell instances apart). -/
inductive PyErr where
  /-- `TypeError`, e.g. `async for` over a plain generator, or a synchronous
  `for` over an object that only implements the asynchronous iteration
  protocol. -/
  | typeError
  /-- `KeyError(k)` from a dict lookup or `del` on a missing key `k`. -/
  | keyError (k : String)
  /-- `ValueError(msg)`. -/
  | valueError (msg : String)
  /-- `NameError`: the name `n` was read but is bound nowhere. -/
  | nameError (n : String)
  /-- `AttributeError`: attribute `n` looked up on an object that lacks it. -/
  | attributeError (n : String)
  deriving DecidableEq, Repr

/-- A document: opaque content unit (`langchain_core.documents.Document`). -/
structure Document where
  content : String
  deriving DecidableEq, Repr

/-- The `DictIndex` backend state: a Python dict from identifier to document,
an insertion-ordered association list with pairwise-distinct keys. -/
abbrev Store := List (String × Document)

/-- `UpsertResponse(succeeded=..., failed=...)`. -/
structure UpsertResponse where
  succeeded : List String
  failed : List String
  deriving DecidableEq, Repr

/-- `DeleteResponse(succeeded=..., failed=...)`. -/
structure DeleteResponse where
  succeeded : List String
  failed : List String
  deriving DecidableEq, Repr

/-- The run of a (synchronous) Python generator: the items it yielded, in
order, and the exception that ended it (`none` when it ran to completion). -/
structure GenRun (α : Type) where
  yielded : List α
  err : Option PyErr
  deriving DecidableEq, Repr

/-- `dict[k]`: value of the first (only) entry with key `k`. -/
def dictGet (store : Store) (k : String) : Option Document :=
  (store.find? (fun p => p.1 == k)).map (fun p => p.2)

/-- `dict[k] = v`: overwrite in place when `k` is present, else append,
preserving insertion order as Python dicts do. -/
def dictInsert (store : Store) (k : String) (v : Document) : Store :=
  match store.find? (fun p => p.1 == k) with
  | some _ => store.map (fun p => if p.1 == k then (k, v) else p)
  | none => store ++ [(k, v)]

/-- `del dict[k]`: `none` models the `KeyError` raised when `k` is absent. -/
def dictDelete (store : Store) (k : String) : Option Store :=
  match store.find? (fun p => p.1 == k) with
  | some _ => some (store.filter (fun p => p.1 != k))
  | none => none

namespace DictIndex

/-- The loop of `DictIndex.upsert`: `for id_, doc in zip(ids, documents):
self.store[id_] = doc; succeeded.append(id_)`. Returns the final store and
the `succeeded` list in append order. -/
def upsertLoop (store : Store) : List (String × Document) → Store × List String
  | [] => (store, [])
  | (id, doc) :: rest =>
    let r := upsertLoop (dictInsert store id doc) rest
    (r.1, id :: r.2)

/-- `DictIndex.upsert(documents, ids=..., **kwargs)`.

`ids = ids or uuid4_generator()`: when `ids` is `None` or empty (falsy), a
fresh identifier generator is used; `uuidSupply` stands for that generator's
stream, and `zip` against the infinite generator pairs every document with a
fresh identifier. With a truthy `ids`, `zip(ids, documents)` truncates to the
shorter of the two sequences. Returns the new store and
`UpsertResponse(succeeded=succeeded, failed=[])`. -/
def upsert (store : Store) (documents : List Document) (ids : Option (List String))
    (uuidSupply : Nat → String) : Store × UpsertResponse :=
  let idsList :=
    match ids with
    | some l => if l.isEmpty then (List.range documents.length).map uuidSupply else l
    | none => (List.range documents.length).map uuidSupply
  let r := upsertLoop store (idsList.zip documents)
  (r.1, ⟨r.2, []⟩)

/-- `DictIndex.delete_by_ids(ids)`: for each id, `del self.store[id_]`;
`KeyError` is caught and the id appended to `failed`, otherwise to
`succeeded`. The call itself never raises. -/
def delete_by_ids (store : Store) : List String → Store × DeleteResponse
  | [] => (store, ⟨[], []⟩)
  | id :: rest =>
    match dictDelete store id with
    | some store' =>
      let r := delete_by_ids store' rest
      (r.1, ⟨id :: r.2.succeeded, r.2.failed⟩)
    | none =>
      let r := delete_by_ids store rest
      (r.1, ⟨r.2.succeeded, id :: r.2.failed⟩)

/-- `DictIndex.lazy_get_by_ids(ids)`: a generator yielding `self.store[id]`
for each requested id in request order; a missing key raises `KeyError`
inside the generator, ending the run after the previously yielded items. -/
def lazy_get_by_ids (store : Store) : List String → GenRun Document
  | [] => ⟨[], none⟩
  | id :: rest =>
    match dictGet store id with
    | none => ⟨[], some (.keyError id)⟩
    | some doc =>
      let g := lazy_get_by_ids store rest
      ⟨doc :: g.yielded, g.err⟩

end DictIndex

/-- The `ids` argument of an asynchronous entry point: a plain (synchronous)
iterable of identifiers, or an asynchronous iterable of them. Python does not
check the annotation, so either can flow in; only iteration tells them apart. -/
inductive IdsVal where
  | sync (ids : List String)
  | async (ids : List String)
  deriving DecidableEq, Repr

/-- The awaited result of the default `alazy_get_by_ids`: `run_in_executor`
calls `self.lazy_get_by_ids(ids)` in a worker thread; calling a generator
function returns a generator object without running its body, so the
awaited value is a synchronous generator capturing the store and the `ids`
argument exactly as it was passed — nothing collects an async `ids` into a
plain sequence. A backend overriding the async path would instead hand back
an asynchronous iterable of documents (`asyncIter`). -/
inductive DocIterVal where
  | syncGen (store : Store) (ids : IdsVal)
  | asyncIter (docs : List Document)
  deriving DecidableEq, Repr

/-- The filter argument: `Union[StructuredQuery, Dict[str, Any],
List[Dict[str, Any]], None]`. -/
inductive Filters where
  | none
  | structuredQuery (q : String)
  | dict (entries : List (String × String))
  | dictList (l : List (List (String × String)))
  deriving DecidableEq, Repr

/-- Python truthiness of a filter value: `None` and empty containers are
falsy, a `StructuredQuery` object is always truthy. -/
def Filters.truthy : Filters → Bool
  | .none => false
  | .structuredQuery _ => true
  | .dict entries => !entries.isEmpty
  | .dictList l => !l.isEmpty

/-- A value carried in `**kwargs`: an opaque caller argument, a folded-in
filter, or an `ids` keyword captured by `**kwargs` because the function's
signature lacks an `ids` parameter. -/
inductive KwargVal where
  | str (s : String)
  | filt (f : Filters)
  | idsArg (l : List String)
  deriving DecidableEq, Repr

/-- The remaining keyword arguments of a call, in order. -/
abbrev Kwargs := List (String × KwargVal)

namespace VectorIndex

/-- `if filters: kwargs = {"filters": filters, **kwargs}` — a truthy filter is
folded into the remaining keyword arguments under the key `"filters"`. -/
def foldFilters (filters : Filters) (kwargs : Kwargs) : Kwargs :=
  if filters.truthy then ("filters", KwargVal.filt filters) :: kwargs else kwargs

/-- Synchronously iterating the generator produced by `lazy_get_by_ids` when
its `ids` argument was an `IdsVal`: `for id in ids` over an asynchronous
iterable raises `TypeError` at the first step; over a plain iterable the run
is the usual one. -/
def runSyncGen (store : Store) : IdsVal → GenRun Document
  | .async _ => ⟨[], some .typeError⟩
  | .sync ids => DictIndex.lazy_get_by_ids store ids

/-- `list(gen)`: materializing a generator run; an exception inside the
generator propagates out of `list`, discarding the items yielded so far. -/
def materialize (g : GenRun Document) : Except PyErr (List Document) :=
  match g.err with
  | some e => .error e
  | Option.none => .ok g.yielded

/-- `VectorIndex.get_by_ids(ids)`: `return list(self.lazy_get_by_ids(ids))`,
over the `DictIndex` reference primitive. -/
def get_by_ids (store : Store) (ids : List String) : Except PyErr (List Document) :=
  materialize (DictIndex.lazy_get_by_ids store ids)

/-- `VectorIndex.alazy_get_by_ids(ids)`: `return await run_in_executor(None,
self.lazy_get_by_ids, ids)`. The executor calls the synchronous generator
function with `ids` as passed; the call returns the (unstarted) generator
object, so the awaited value is that synchronous generator — the
`AsyncIterable` argument is never collected into a plain sequence. -/
def alazy_get_by_ids (store : Store) (ids : IdsVal) : DocIterVal :=
  .syncGen store ids

/-- `VectorIndex.aget_by_ids(ids)`: `async for doc in await
self.alazy_get_by_ids(ids): docs.append(doc)`. `async for` requires an
asynchronous iterable; the default `alazy_get_by_ids` hands back a
synchronous generator, on which `async for` raises `TypeError`. -/
def aget_by_ids (store : Store) (ids : IdsVal) : Except PyErr (List Document) :=
  match alazy_get_by_ids store ids with
  | .syncGen _ _ => .error .typeError
  | .asyncIter docs => .ok docs

/-- `VectorIndex.lazy_get(*, ids=None, filters=None, **kwargs)`: raises
`ValueError` when `ids is None`; otherwise folds a truthy filter into
`kwargs`, warns iff the folded kwargs are non-empty, and returns
`self.lazy_get_by_ids(ids)`. The `Bool` records whether the non-fatal
warning was emitted before the call returned or raised. -/
def lazy_get (store : Store) (ids : Option (List String)) (filters : Filters)
    (kwargs : Kwargs) : Bool × Except PyErr (GenRun Document) :=
  match ids with
  | Option.none => (false, .error (.valueError "Must provide ids to get."))
  | some l =>
    let kw := foldFilters filters kwargs
    (!kw.isEmpty, .ok (DictIndex.lazy_get_by_ids store l))

/-- `VectorIndex.get(*, ids=None, filters=None, **kwargs)`:
`return list(self.lazy_get(ids=ids, filters=filters, **kwargs))`. -/
def get (store : Store) (ids : Option (List String)) (filters : Filters)
    (kwargs : Kwargs) : Bool × Except PyErr (List Document) :=
  match lazy_get store ids filters kwargs with
  | (w, .error e) => (w, .error e)
  | (w, .ok g) => (w, materialize g)

/-- `VectorIndex.alazy_get(*, ids=None, filters=None, **kwargs)`: same
validation and warning policy as `lazy_get`, then
`return await self.alazy_get_by_ids(ids)`. -/
def alazy_get (store : Store) (ids : Option IdsVal) (filters : Filters)
    (kwargs : Kwargs) : Bool × Except PyErr DocIterVal :=
  match ids with
  | Option.none => (false, .error (.valueError "Must provide ids to get."))
  | some v =>
    let kw := foldFilters filters kwargs
    (!kw.isEmpty, .ok (alazy_get_by_ids store v))

/-- `VectorIndex.aget(*, ids=None, filters=None, **kwargs)`: `async for doc in
await self.alazy_get(...)`. The awaited value of the default `alazy_get` is a
synchronous generator, so when `ids` is supplied the `async for` raises
`TypeError`; when `ids is None` the `ValueError` from `alazy_get` propagates. -/
def aget (store : Store) (ids : Option IdsVal) (filters : Filters)
    (kwargs : Kwargs) : Bool × Except PyErr (List Document) :=
  match alazy_get store ids filters kwargs with
  | (w, .error e) => (w, .error e)
  | (w, .ok (.syncGen _ _)) => (w, .error .typeError)
  | (w, .ok (.asyncIter docs)) => (w, .ok docs)

/-- `VectorIndex.delete_by_filter(*, filters=None, **kwargs)`.

The signature binds only `filters` and `**kwargs` — it has no `ids`
parameter, so an `ids=` keyword a caller passes is captured inside `kwargs`.
The body's first statement, `if ids is None:`, reads a name `ids` that is
neither a parameter, nor assigned in the body, nor a module global, so every
call raises `NameError` there; the filter folding, the warning and the
delegation to `delete_by_ids` on the lines below it are unreachable, and no
warning is ever emitted. (The docstring promises `ValueError` when ids are
missing and delegation to `delete_by_ids` otherwise.) -/
def delete_by_filter (_store : Store) (_filters : Filters) (_kwargs : Kwargs) :
    Bool × Except PyErr (DeleteResponse × Store) :=
  (false, .error (.nameError "ids"))

/-- `VectorIndex.adelete(*, ids=None, filters=None, **kwargs)`: raises
`ValueError` when `ids is None`; otherwise folds a truthy filter into
`kwargs` and warns iff the folded kwargs are non-empty, then evaluates
`await self.adelete_by_ids(ids)`. `VectorIndex` defines no `adelete_by_ids`
(the mandatory primitives are `upsert_by_vector`, `delete_by_ids` and
`lazy_get_by_ids`), so on a backend relying on the defaults the attribute
lookup raises `AttributeError` — after the warning, before any deletion. -/
def adelete (_store : Store) (ids : Option IdsVal) (filters : Filters)
    (kwargs : Kwargs) : Bool × Except PyErr (DeleteResponse × Store) :=
  match ids with
  | Option.none => (false, .error (.valueError "Must provide ids to delete."))
  | some _ =>
    let kw := foldFilters filters kwargs
    (!kw.isEmpty, .error (.attributeError "adelete_by_ids"))

end VectorIndex

/-!  Helper lemmas about the reference backend. -/

/-- Removing entries (a `filter`) cannot make an absent key present. -/
theorem dictGet_filter_none (store : Store) (k id : String)
    (h : dictGet store id = Option.none) :
    dictGet (store.filter (fun p => p.1 != k)) id = Option.none := by
  unfold dictGet at h ⊢
  cases hf : (store.filter (fun p => p.1 != k)).find? (fun p => p.1 == id) with
  | none => rfl
  | some p =>
    have hp := List.find?_some hf
    have hmem := List.mem_filter.mp (List.mem_of_find?_eq_some hf)
    cases hfind : store.find? (fun p => p.1 == id) with
    | none =>
      exact absurd hp (by simpa using List.find?_eq_none.mp hfind _ hmem.1)
    | some q => rw [hfind] at h; simp at h

/-- A key absent before a `del` of some (other) key is still absent after it. -/
theorem dictGet_after_dictDelete (store store' : Store) (k id : String)
    (h : dictGet store id = Option.none) (hd : dictDelete store k = some store') :
    dictGet store' id = Option.none := by
  unfold dictDelete at hd
  cases hfind : store.find? (fun p => p.1 == k) with
  | none => rw [hfind] at hd; simp at hd
  | some p =>
    rw [hfind] at hd
    have : store' = store.filter (fun p => p.1 != k) := by
      simpa using hd.symm
    rw [this]
    exact dictGet_filter_none store k id h

/-- `delete_by_ids` hands back exactly the submitted identifiers, each with a
verdict: `succeeded ++ failed` is a permutation of the input sequence. -/
theorem delete_by_ids_perm (store : Store) (ids : List String) :
    ((DictIndex.delete_by_ids store ids).2.succeeded
      ++ (DictIndex.delete_by_ids store ids).2.failed).Perm ids := by
  induction ids generalizing store with
  | nil => simp [DictIndex.delete_by_ids]
  | cons a rest ih =>
    cases hd : dictDelete store a with
    | some store' =>
      simpa [DictIndex.delete_by_ids, hd] using (ih store').cons a
    | none =>
      simpa [DictIndex.delete_by_ids, hd] using
        List.perm_middle.trans ((ih store).cons a)

/-- Any identifier in either verdict list of `delete_by_ids` was submitted. -/
theorem delete_by_ids_mem_of_mem (store : Store) (ids : List String) (x : String)
    (h : x ∈ (DictIndex.delete_by_ids store ids).2.succeeded
      ∨ x ∈ (DictIndex.delete_by_ids store ids).2.failed) :
    x ∈ ids :=
  (delete_by_ids_perm store ids).mem_iff.mp (List.mem_append.mpr h)

/-- On a duplicate-free submission, `delete_by_ids` never puts an identifier
in both verdict lists. -/
theorem delete_by_ids_disjoint (store : Store) (ids : List String)
    (h : ids.Nodup) :
    ∀ x ∈ (DictIndex.delete_by_ids store ids).2.succeeded,
      x ∉ (DictIndex.delete_by_ids store ids).2.failed := by
  induction ids generalizing store with
  | nil => simp [DictIndex.delete_by_ids]
  | cons a rest ih =>
    have ha : a ∉ rest := (List.nodup_cons.mp h).1
    have hrest : rest.Nodup := (List.nodup_cons.mp h).2
    cases hd : dictDelete store a with
    | some store' =>
      intro x hx hx'
      simp only [DictIndex.delete_by_ids, hd] at hx hx'
      rcases List.mem_cons.mp hx with rfl | hx
      · exact ha (delete_by_ids_mem_of_mem store' rest x (Or.inr hx'))
      · exact ih store' hrest x hx hx'
    | none =>
      intro x hx hx'
      simp only [DictIndex.delete_by_ids, hd] at hx hx'
      rcases List.mem_cons.mp hx' with rfl | hx'
      · exact ha (delete_by_ids_mem_of_mem store rest x (Or.inl hx))
      · exact ih store hrest x hx hx'

/-- An identifier absent from the store when `delete_by_ids` starts is still
absent when its turn comes, so it ends up in `failed`. -/
theorem delete_by_ids_absent_failed (store : Store) (ids : List String)
    (id : String) (h1 : id ∈ ids) (h2 : dictGet store id = Option.none) :
    id ∈ (DictIndex.delete_by_ids store ids).2.failed := by
  induction ids generalizing store with
  | nil => cases h1
  | cons a rest ih =>
    rcases List.mem_cons.mp h1 with rfl | hmem
    · have hd : dictDelete store id = Option.none := by
        unfold dictGet at h2
        unfold dictDelete
        cases hfind : store.find? (fun p => p.1 == id) with
        | none => rfl
        | some p => rw [hfind] at h2; simp at h2
      simp [DictIndex.delete_by_ids, hd]
    · cases hd : dictDelete store a with
      | some store' =>
        have h2' := dictGet_after_dictDelete store store' a id h2 hd
        simpa [DictIndex.delete_by_ids, hd] using ih store' hmem h2'
      | none =>
        simpa [DictIndex.delete_by_ids, hd] using Or.inr (ih store hmem h2)

/-- The `succeeded` list built by the upsert loop is exactly the keys of the
pairs it walked, in order. -/
theorem upsertLoop_snd (store : Store) (pairs : List (String × Document)) :
    (DictIndex.upsertLoop store pairs).2 = pairs.map Prod.fst := by
  induction pairs generalizing store with
  | nil => rfl
  | cons p rest ih =>
    simp [DictIndex.upsertLoop, ih]

/-- When every requested identifier is present, the reference generator
yields exactly the bound documents, in request order, and completes. -/
theorem lazy_get_by_ids_all_present (store : Store) (ids : List String)
    (h : ∀ id ∈ ids, (dictGet store id).isSome = true) :
    DictIndex.lazy_get_by_ids store ids
      = ⟨ids.filterMap (dictGet store), Option.none⟩ := by
  induction ids with
  | nil => rfl
  | cons a rest ih =>
    obtain ⟨doc, hdoc⟩ := Option.isSome_iff_exists.mp (h a (List.mem_cons_self a rest))
    have hrest := ih (fun id hid => h id (List.mem_cons_of_mem a hid))
    simp [DictIndex.lazy_get_by_ids, hdoc, hrest, List.filterMap_cons]

/-!  Claim theorems. -/

/-- C1: the claim says the default async adapters make `await aget_by_ids(ids)`
equal `get_by_ids(ids)` by collecting the async id sequence and running the
sync primitive through an executor. The code does neither: the executor hands
the `AsyncIterable` uncollected to the synchronous generator function, whose
unstarted generator object is then `async for`-ed by `aget_by_ids`, raising
`TypeError` on every call — while `get_by_ids` on the same state returns the
documents (shown at the concrete state `{"a": da}`). Iterating the generator
synchronously fails as well, because the captured `ids` is asynchronous. -/
theorem C1_default_async_get_raises_typeerror (store : Store) (ids : List String) :
    VectorIndex.aget_by_ids store (.async ids) = .error .typeError
    ∧ VectorIndex.aget_by_ids store (.sync ids) = .error .typeError
    ∧ VectorIndex.alazy_get_by_ids store (.async ids) = .syncGen store (.async ids)
    ∧ VectorIndex.runSyncGen store (.async ids) = ⟨[], some .typeError⟩
    ∧ VectorIndex.get_by_ids [("a", ⟨"da"⟩)] ["a"] = .ok [⟨"da"⟩] :=
  ⟨rfl, rfl, rfl, rfl, rfl⟩

/-- C2: the claim says all six default filtered operations raise `ValueError`
when no identifiers are supplied. Five do; `delete_by_filter` cannot — its
signature lacks the `ids` parameter its body and docstring rely on, so every
call (with or without a filter) raises `NameError` instead of the documented
`ValueError`. -/
theorem C2_missing_ids_errors (store : Store) (filters : Filters) (kwargs : Kwargs) :
    VectorIndex.lazy_get store Option.none filters kwargs
      = (false, .error (.valueError "Must provide ids to get."))
    ∧ VectorIndex.get store Option.none filters kwargs
      = (false, .error (.valueError "Must provide ids to get."))
    ∧ VectorIndex.alazy_get store Option.none filters kwargs
      = (false, .error (.valueError "Must provide ids to get."))
    ∧ VectorIndex.aget store Option.none filters kwargs
      = (false, .error (.valueError "Must provide ids to get."))
    ∧ VectorIndex.adelete store Option.none filters kwargs
      = (false, .error (.valueError "Must provide ids to delete."))
    ∧ VectorIndex.delete_by_filter store filters kwargs
      = (false, .error (.nameError "ids")) :=
  ⟨rfl, rfl, rfl, rfl, rfl, rfl⟩

/-- C3: the claim says the default filtered deletes with identifiers supplied
delegate to the identifier-based delete and return its `DeleteResponse`.
Neither does: `delete_by_filter` has no `ids` parameter, so a caller's
`ids=` keyword lands in `**kwargs` and the body's read of the unbound name
`ids` raises `NameError` before any delegation; `adelete` validates `ids`,
then delegates to `self.adelete_by_ids`, an attribute `VectorIndex` never
defines, raising `AttributeError` on a backend relying on the defaults. -/
theorem C3_filtered_delete_never_delegates (store : Store) (filters : Filters)
    (ids : List String) (aids : IdsVal) (kwargs : Kwargs) :
    VectorIndex.delete_by_filter store filters (("ids", KwargVal.idsArg ids) :: kwargs)
      = (false, .error (.nameError "ids"))
    ∧ VectorIndex.adelete store (some aids) filters kwargs
      = (!(VectorIndex.foldFilters filters kwargs).isEmpty,
          .error (.attributeError "adelete_by_ids")) :=
  ⟨rfl, rfl⟩

/-- C4: `get` with `ids=["x"]` and a truthy filter emits the non-fatal
warning and returns the same documents (or the same exception) as `get` with
`ids=["x"]` and no filter, which does not warn; the filter is folded into the
remaining keyword arguments under the key `"filters"`. -/
theorem C4_filtered_get_warns_same_result (store : Store) (filters : Filters)
    (hf : filters.truthy = true) :
    VectorIndex.get store (some ["x"]) filters []
      = (true, (VectorIndex.get store (some ["x"]) Filters.none []).2)
    ∧ (VectorIndex.get store (some ["x"]) Filters.none []).1 = false
    ∧ ("filters", KwargVal.filt filters) ∈ VectorIndex.foldFilters filters [] := by
  refine ⟨?_, rfl, ?_⟩
  · simp [VectorIndex.get, VectorIndex.lazy_get, VectorIndex.foldFilters, hf,
      VectorIndex.materialize]
  · simp [VectorIndex.foldFilters, hf]

/-- C4 witness: the theorem applied at state `{"x": dx}` and filter
`{"k": "v"}`. -/
theorem C4_filtered_get_warns_same_result_witness :
    (Filters.dict [("k", "v")]).truthy = true
    ∧ (VectorIndex.get [("x", ⟨"dx"⟩)] (some ["x"]) (.dict [("k", "v")]) []
        = (true, (VectorIndex.get [("x", ⟨"dx"⟩)] (some ["x"]) Filters.none []).2)
      ∧ (VectorIndex.get [("x", ⟨"dx"⟩)] (some ["x"]) Filters.none []).1 = false
      ∧ ("filters", KwargVal.filt (.dict [("k", "v")]))
          ∈ VectorIndex.foldFilters (.dict [("k", "v")]) []) :=
  ⟨rfl, C4_filtered_get_warns_same_result [("x", ⟨"dx"⟩)] (.dict [("k", "v")]) rfl⟩

/-- C5: the eager `get_by_ids` is exactly `list(...)` of the lazy sequence
from `lazy_get_by_ids`: when the lazy run completes, the eager result is its
yielded documents in the same order (and an exception in the lazy run is the
eager call's exception). -/
theorem C5_eager_get_materializes_lazy (store : Store) (ids : List String) :
    VectorIndex.get_by_ids store ids
      = VectorIndex.materialize (DictIndex.lazy_get_by_ids store ids)
    ∧ ((DictIndex.lazy_get_by_ids store ids).err = Option.none →
        VectorIndex.get_by_ids store ids
          = .ok (DictIndex.lazy_get_by_ids store ids).yielded) := by
  refine ⟨rfl, fun h => ?_⟩
  unfold VectorIndex.get_by_ids VectorIndex.materialize
  rw [h]

/-- C5 witness: the theorem applied at state `{"a": da}` and ids `["a"]`. -/
theorem C5_eager_get_materializes_lazy_witness :
    (DictIndex.lazy_get_by_ids [("a", ⟨"da"⟩)] ["a"]).err = Option.none
    ∧ VectorIndex.get_by_ids [("a", ⟨"da"⟩)] ["a"]
        = .ok (DictIndex.lazy_get_by_ids [("a", ⟨"da"⟩)] ["a"]).yielded :=
  ⟨rfl, (C5_eager_get_materializes_lazy [("a", ⟨"da"⟩)] ["a"]).2 rfl⟩

/-- C6 counterexample: the partition invariant fails as stated. Deleting
`["1","1"]` from the store `{"1": d}` puts `"1"` in both `succeeded` and
`failed` (their intersection is not empty), and upserting a single document
with `ids=["1","2"]` positions `zip` to drop `"2"`, which then appears in
neither list (the union does not cover the submitted identifiers). -/
theorem C6_partition_counterexample :
    ("1" ∈ (DictIndex.delete_by_ids [("1", ⟨"d"⟩)] ["1", "1"]).2.succeeded
      ∧ "1" ∈ (DictIndex.delete_by_ids [("1", ⟨"d"⟩)] ["1", "1"]).2.failed)
    ∧ ("2" ∉ (DictIndex.upsert [] [⟨"d"⟩] (some ["1", "2"]) (fun _ => "u")).2.succeeded
      ∧ "2" ∉ (DictIndex.upsert [] [⟨"d"⟩] (some ["1", "2"]) (fun _ => "u")).2.failed) := by
  refine ⟨⟨?_, ?_⟩, ?_, ?_⟩ <;> decide

/-- C6 (amended): for `delete_by_ids` on a duplicate-free identifier
sequence, `succeeded ++ failed` is a permutation of the submitted sequence
and the two lists are disjoint; for `upsert` with an explicitly supplied,
non-empty identifier sequence no longer than `documents`, `succeeded` is
exactly the submitted identifiers and `failed` is empty, so the partition is
trivial. -/
theorem C6_partition_amended (store : Store) (delIds : List String)
    (docs : List Document) (upIds : List String) (uuidSupply : Nat → String)
    (h1 : delIds.Nodup) (h2 : upIds ≠ []) (h3 : upIds.length ≤ docs.length) :
    (((DictIndex.delete_by_ids store delIds).2.succeeded
        ++ (DictIndex.delete_by_ids store delIds).2.failed).Perm delIds
      ∧ ∀ x ∈ (DictIndex.delete_by_ids store delIds).2.succeeded,
          x ∉ (DictIndex.delete_by_ids store delIds).2.failed)
    ∧ (DictIndex.upsert store docs (some upIds) uuidSupply).2.succeeded = upIds
    ∧ (DictIndex.upsert store docs (some upIds) uuidSupply).2.failed = [] := by
  refine ⟨⟨delete_by_ids_perm store delIds, delete_by_ids_disjoint store delIds h1⟩,
    ?_, rfl⟩
  have hne : upIds.isEmpty = false := by
    cases upIds with
    | nil => exact absurd rfl h2
    | cons a l => rfl
  simp [DictIndex.upsert, hne, upsertLoop_snd, List.map_fst_zip upIds docs h3]

/-- C6 witness: the amended theorem applied to deleting `["1","3"]` from
`{"1": d1, "2": d2}` and upserting two documents with `ids=["x","y"]`. -/
theorem C6_partition_amended_witness :
    ((["1", "3"] : List String).Nodup ∧ (["x", "y"] : List String) ≠ []
      ∧ (["x", "y"] : List String).length ≤ [Document.mk "a", Document.mk "b"].length)
    ∧ ((((DictIndex.delete_by_ids [("1", ⟨"d1"⟩), ("2", ⟨"d2"⟩)] ["1", "3"]).2.succeeded
          ++ (DictIndex.delete_by_ids [("1", ⟨"d1"⟩), ("2", ⟨"d2"⟩)] ["1", "3"]).2.failed).Perm
            ["1", "3"]
        ∧ ∀ x ∈ (DictIndex.delete_by_ids [("1", ⟨"d1"⟩), ("2", ⟨"d2"⟩)] ["1", "3"]).2.succeeded,
            x ∉ (DictIndex.delete_by_ids [("1", ⟨"d1"⟩), ("2", ⟨"d2"⟩)] ["1", "3"]).2.failed)
      ∧ (DictIndex.upsert [] [Document.mk "a", Document.mk "b"] (some ["x", "y"])
          (fun _ => "u")).2.succeeded = ["x", "y"]
      ∧ (DictIndex.upsert [] [Document.mk "a", Document.mk "b"] (some ["x", "y"])
          (fun _ => "u")).2.failed = []) :=
  ⟨⟨by decide, by decide, by decide⟩,
    C6_partition_amended [("1", ⟨"d1"⟩), ("2", ⟨"d2"⟩)] ["1", "3"]
      [Document.mk "a", Document.mk "b"] ["x", "y"] (fun _ => "u")
      (by decide) (by decide) (by decide)⟩

/-- C7: when every requested identifier is bound in the store, `get_by_ids`
and `lazy_get_by_ids` produce the documents in the order the identifiers were
requested — each position holds the document bound to the identifier
requested at that position. -/
theorem C7_get_in_request_order (store : Store) (ids : List String)
    (h : ∀ id ∈ ids, (dictGet store id).isSome = true) :
    (DictIndex.lazy_get_by_ids store ids).yielded = ids.filterMap (dictGet store)
    ∧ (DictIndex.lazy_get_by_ids store ids).err = Option.none
    ∧ VectorIndex.get_by_ids store ids = .ok (ids.filterMap (dictGet store)) := by
  have hrun := lazy_get_by_ids_all_present store ids h
  refine ⟨by rw [hrun], by rw [hrun], ?_⟩
  unfold VectorIndex.get_by_ids
  rw [hrun]
  rfl

/-- C7 witness: with insertion order `a, b, c`, requesting `["b","a","c"]`
returns the documents for `b`, `a`, `c` in that order — neither insertion
order nor identifier-sorted order. -/
theorem C7_get_in_request_order_witness :
    (∀ id ∈ ["b", "a", "c"],
      (dictGet [("a", ⟨"da"⟩), ("b", ⟨"db"⟩), ("c", ⟨"dc"⟩)] id).isSome = true)
    ∧ VectorIndex.get_by_ids [("a", ⟨"da"⟩), ("b", ⟨"db"⟩), ("c", ⟨"dc"⟩)] ["b", "a", "c"]
        = .ok [⟨"db"⟩, ⟨"da"⟩, ⟨"dc"⟩] :=
  ⟨by decide,
    (C7_get_in_request_order [("a", ⟨"da"⟩), ("b", ⟨"db"⟩), ("c", ⟨"dc"⟩)]
      ["b", "a", "c"] (by decide)).2.2.trans (congrArg Except.ok (by decide))⟩

/-- C8: an identifier submitted to `delete_by_ids` that is unknown to the
backend ends up in the response's `failed` list, and the call returns
normally with a verdict for every submitted identifier (`succeeded ++ failed`
permutes the submission; by construction the function is total — `KeyError`
is caught inside the loop, never raised to the caller). -/
theorem C8_unknown_ids_reported_failed (store : Store) (ids : List String)
    (id : String) (h1 : id ∈ ids) (h2 : dictGet store id = Option.none) :
    id ∈ (DictIndex.delete_by_ids store ids).2.failed
    ∧ ((DictIndex.delete_by_ids store ids).2.succeeded
        ++ (DictIndex.delete_by_ids store ids).2.failed).Perm ids :=
  ⟨delete_by_ids_absent_failed store ids id h1 h2, delete_by_ids_perm store ids⟩

/-- C8 witness: the spec's concrete scenario — deleting `["1","3"]` from
`{"1": d1, "2": d2}` reports the unknown `"3"` as failed. -/
theorem C8_unknown_ids_reported_failed_witness :
    ("3" ∈ ["1", "3"]
      ∧ dictGet [("1", ⟨"d1"⟩), ("2", ⟨"d2"⟩)] "3" = Option.none)
    ∧ "3" ∈ (DictIndex.delete_by_ids [("1", ⟨"d1"⟩), ("2", ⟨"d2"⟩)] ["1", "3"]).2.failed :=
  ⟨⟨by decide, by decide⟩,
    (C8_unknown_ids_reported_failed [("1", ⟨"d1"⟩), ("2", ⟨"d2"⟩)] ["1", "3"] "3"
      (by decide) (by decide)).1⟩

/-- C9: the claim covers the default filtered get and delete operations. For
`lazy_get` the warning is emitted iff the remaining keyword arguments, with a
truthy filter folded in, are non-empty, and with an absent filter and no
keyword arguments the call proceeds warning-free using identifiers only. But
`delete_by_filter` never reaches its warning: every call raises `NameError`
on the unbound name `ids` first, so for it the claimed iff fails whenever the
folded kwargs are non-empty. -/
theorem C9_warning_iff_kwargs_nonempty (store : Store) (ids : List String)
    (filters : Filters) (kwargs : Kwargs) :
    ((VectorIndex.lazy_get store (some ids) filters kwargs).1 = true
      ↔ VectorIndex.foldFilters filters kwargs ≠ [])
    ∧ VectorIndex.lazy_get store (some ids) Filters.none []
        = (false, .ok (DictIndex.lazy_get_by_ids store ids))
    ∧ VectorIndex.delete_by_filter store filters kwargs
        = (false, .error (.nameError "ids")) := by
  refine ⟨?_, rfl, rfl⟩
  show (!(VectorIndex.foldFilters filters kwargs).isEmpty) = true
    ↔ VectorIndex.foldFilters filters kwargs ≠ []
  simp [List.isEmpty_iff]

/-- C10: the identifier check of the default filtered gets is `ids is None`,
so an empty identifier sequence passes it: with `ids=[]` (any filter, any
kwargs) `lazy_get` and `get` raise nothing, with no filter and no kwargs they
emit no warning, and `get` returns the empty list. -/
theorem C10_empty_ids_accepted (store : Store) (filters : Filters) (kwargs : Kwargs) :
    (VectorIndex.lazy_get store (some []) filters kwargs).2
      = .ok (DictIndex.lazy_get_by_ids store [])
    ∧ (VectorIndex.get store (some []) filters kwargs).2 = .ok []
    ∧ VectorIndex.lazy_get store (some []) Filters.none []
        = (false, .ok ⟨[], Option.none⟩)
    ∧ VectorIndex.get store (some []) Filters.none [] = (false, .ok []) :=
  ⟨rfl, rfl, rfl, rfl⟩
